import Mathlib

set_option linter.unusedVariables false

/-!
Verification of the ADE risk-scoring engine (`src/app.py` and
`src/backend/main.py`).  Numeric patient measurements (INR, weight,
creatinine) are modelled as rationals, ages as integers, scores as
naturals (every addend in the source is a nonnegative literal and the
accumulator starts at 0).  Gender and race are the raw strings the
source compares against.
-/

namespace App

/-- Pre-clamp accumulator of `calculate_bleeding_risk` (src/app.py lines 98-113):
the sum of the weighted conditions, in source order. -/
def bleedingSum (age : ℤ) (inr : ℚ) (anticoagulant gi_bleed high_bp antiplatelet_use : Bool)
    (gender : String) (weight : ℚ) (smoking alcohol_use antibiotic_order dietary_change
    liver_disease prior_stroke : Bool) : ℕ :=
  (if anticoagulant then 35 else 0)
  + (if inr > 3.5 then 40 else 0)
  + (if gi_bleed then 30 else 0)
  + (if antiplatelet_use then 15 else 0)
  + (if antibiotic_order then 25 else 0)
  + (if alcohol_use then 15 else 0)
  + (if liver_disease then 20 else 0)
  + (if dietary_change then 10 else 0)
  + (if age > 70 then 10 else 0)
  + (if high_bp then 10 else 0)
  + (if smoking then 10 else 0)
  + (if gender = "Female" then 5 else 0)
  + (if weight > 120 ∨ weight < 50 then 15 else 0)
  + (if prior_stroke then 15 else 0)

/-- `calculate_bleeding_risk` (src/app.py lines 98-114): accumulate the
weighted conditions, then `min(score, 100)`. -/
def calculate_bleeding_risk (age : ℤ) (inr : ℚ)
    (anticoagulant gi_bleed high_bp antiplatelet_use : Bool) (gender : String) (weight : ℚ)
    (smoking alcohol_use antibiotic_order dietary_change liver_disease prior_stroke : Bool) : ℕ :=
  min (bleedingSum age inr anticoagulant gi_bleed high_bp antiplatelet_use gender weight
    smoking alcohol_use antibiotic_order dietary_change liver_disease prior_stroke) 100

/-- Pre-clamp accumulator of `calculate_hypoglycemic_risk` (src/app.py lines 116-123). -/
def hypoSum (insulin_use renal_status high_hba1c neuropathy_history : Bool)
    (gender : String) (weight : ℚ) (recent_dka : Bool) : ℕ :=
  (if insulin_use then 30 else 0)
  + (if renal_status then 45 else 0)
  + (if high_hba1c then 20 else 0)
  + (if neuropathy_history then 10 else 0)
  + (if weight < 60 then 10 else 0)
  + (if recent_dka then 20 else 0)

/-- `calculate_hypoglycemic_risk` (src/app.py lines 116-124). -/
def calculate_hypoglycemic_risk (insulin_use renal_status high_hba1c neuropathy_history : Bool)
    (gender : String) (weight : ℚ) (recent_dka : Bool) : ℕ :=
  min (hypoSum insulin_use renal_status high_hba1c neuropathy_history gender weight recent_dka) 100

/-- Pre-clamp accumulator of `calculate_aki_risk` (src/app.py lines 126-135). -/
def akiSum (age : ℤ) (diuretic_use acei_arb_use high_bp active_chemo : Bool)
    (gender : String) (weight : ℚ) (race : String) (baseline_creat : ℚ)
    (contrast_exposure : Bool) : ℕ :=
  (if diuretic_use then 30 else 0)
  + (if acei_arb_use then 40 else 0)
  + (if contrast_exposure then 25 else 0)
  + (if age > 75 then 20 else 0)
  + (if high_bp then 10 else 0)
  + (if active_chemo then 20 else 0)
  + (if race = "Non-Hispanic Black" then 15 else 0)
  + (if baseline_creat > 1.5 then 30 else 0)

/-- `calculate_aki_risk` (src/app.py lines 126-136). -/
def calculate_aki_risk (age : ℤ) (diuretic_use acei_arb_use high_bp active_chemo : Bool)
    (gender : String) (weight : ℚ) (race : String) (baseline_creat : ℚ)
    (contrast_exposure : Bool) : ℕ :=
  min (akiSum age diuretic_use acei_arb_use high_bp active_chemo gender weight race
    baseline_creat contrast_exposure) 100

/-- Pre-clamp accumulator of `calculate_comorbidity_load` (src/app.py lines 138-145). -/
def comorbiditySum (prior_stroke active_chemo recent_dka liver_disease smoking high_bp : Bool) : ℕ :=
  (if prior_stroke then 25 else 0)
  + (if active_chemo then 30 else 0)
  + (if recent_dka then 20 else 0)
  + (if liver_disease then 15 else 0)
  + (if smoking then 10 else 0)
  + (if high_bp then 10 else 0)

/-- `calculate_comorbidity_load` (src/app.py lines 138-146). -/
def calculate_comorbidity_load
    (prior_stroke active_chemo recent_dka liver_disease smoking high_bp : Bool) : ℕ :=
  min (comorbiditySum prior_stroke active_chemo recent_dka liver_disease smoking high_bp) 100

/-- Risk Calculator primary-threat selection (src/app.py lines 390, 401-404):
`max_risk = max(bleeding, hypoglycemic, aki)`, then the first equality test that
matches in the written order names the risk type, with an unreachable `General`
fallthrough. -/
def risk_type_of (bleeding_risk hypoglycemic_risk aki_risk : ℕ) : String :=
  let max_risk := max (max bleeding_risk hypoglycemic_risk) aki_risk
  if bleeding_risk = max_risk then "Bleeding"
  else if hypoglycemic_risk = max_risk then "Hypoglycemic"
  else if aki_risk = max_risk then "AKI"
  else "General"

/-- `alert_label` (src/app.py line 271): CRITICAL at 90+, HIGH at 70-89, LOW below. -/
def alert_label (max_risk : ℕ) : String :=
  if max_risk ≥ 90 then "CRITICAL" else if max_risk ≥ 70 then "HIGH" else "LOW"

/-- The Risk Calculator alert branch condition (src/app.py line 392): a primary
alert is rendered exactly when `max_risk >= 70`; otherwise the page reports
"Patient risk is manageable. Monitoring is sufficient." (line 418). -/
def showsPrimaryAlert (max_risk : ℕ) : Bool :=
  decide (max_risk ≥ 70)

end App

namespace Backend

/-- Pre-clamp accumulator of `calculate_bleeding_risk` (src/backend/main.py lines 9-24). -/
def bleedingSum (age : ℤ) (inr : ℚ) (anticoagulant gi_bleed high_bp antiplatelet_use : Bool)
    (gender : String) (weight : ℚ) (smoking alcohol_use antibiotic_order dietary_change
    liver_disease prior_stroke : Bool) : ℕ :=
  (if anticoagulant then 35 else 0)
  + (if inr > 3.5 then 40 else 0)
  + (if gi_bleed then 30 else 0)
  + (if antiplatelet_use then 15 else 0)
  + (if antibiotic_order then 25 else 0)
  + (if alcohol_use then 15 else 0)
  + (if liver_disease then 20 else 0)
  + (if dietary_change then 10 else 0)
  + (if age > 70 then 10 else 0)
  + (if high_bp then 10 else 0)
  + (if smoking then 10 else 0)
  + (if gender = "Female" then 5 else 0)
  + (if weight > 120 ∨ weight < 50 then 15 else 0)
  + (if prior_stroke then 15 else 0)

/-- `calculate_bleeding_risk` (src/backend/main.py lines 9-25). -/
def calculate_bleeding_risk (age : ℤ) (inr : ℚ)
    (anticoagulant gi_bleed high_bp antiplatelet_use : Bool) (gender : String) (weight : ℚ)
    (smoking alcohol_use antibiotic_order dietary_change liver_disease prior_stroke : Bool) : ℕ :=
  min (bleedingSum age inr anticoagulant gi_bleed high_bp antiplatelet_use gender weight
    smoking alcohol_use antibiotic_order dietary_change liver_disease prior_stroke) 100

/-- Pre-clamp accumulator of `calculate_hypoglycemic_risk` (src/backend/main.py lines 27-34). -/
def hypoSum (insulin_use renal_status high_hba1c neuropathy_history : Bool)
    (gender : String) (weight : ℚ) (recent_dka : Bool) : ℕ :=
  (if insulin_use then 30 else 0)
  + (if renal_status then 45 else 0)
  + (if high_hba1c then 20 else 0)
  + (if neuropathy_history then 10 else 0)
  + (if weight < 60 then 10 else 0)
  + (if recent_dka then 20 else 0)

/-- `calculate_hypoglycemic_risk` (src/backend/main.py lines 27-35). -/
def calculate_hypoglycemic_risk (insulin_use renal_status high_hba1c neuropathy_history : Bool)
    (gender : String) (weight : ℚ) (recent_dka : Bool) : ℕ :=
  min (hypoSum insulin_use renal_status high_hba1c neuropathy_history gender weight recent_dka) 100

/-- Pre-clamp accumulator of `calculate_aki_risk` (src/backend/main.py lines 37-46). -/
def akiSum (age : ℤ) (diuretic_use acei_arb_use high_bp active_chemo : Bool)
    (gender : String) (weight : ℚ) (race : String) (baseline_creat : ℚ)
    (contrast_exposure : Bool) : ℕ :=
  (if diuretic_use then 30 else 0)
  + (if acei_arb_use then 40 else 0)
  + (if contrast_exposure then 25 else 0)
  + (if age > 75 then 20 else 0)
  + (if high_bp then 10 else 0)
  + (if active_chemo then 20 else 0)
  + (if race = "Non-Hispanic Black" then 15 else 0)
  + (if baseline_creat > 1.5 then 30 else 0)

/-- `calculate_aki_risk` (src/backend/main.py lines 37-47). -/
def calculate_aki_risk (age : ℤ) (diuretic_use acei_arb_use high_bp active_chemo : Bool)
    (gender : String) (weight : ℚ) (race : String) (baseline_creat : ℚ)
    (contrast_exposure : Bool) : ℕ :=
  min (akiSum age diuretic_use acei_arb_use high_bp active_chemo gender weight race
    baseline_creat contrast_exposure) 100

/-- Pre-clamp accumulator of `calculate_comorbidity_load` (src/backend/main.py lines 49-56). -/
def comorbiditySum (prior_stroke active_chemo recent_dka liver_disease smoking high_bp : Bool) : ℕ :=
  (if prior_stroke then 25 else 0)
  + (if active_chemo then 30 else 0)
  + (if recent_dka then 20 else 0)
  + (if liver_disease then 15 else 0)
  + (if smoking then 10 else 0)
  + (if high_bp then 10 else 0)

/-- `calculate_comorbidity_load` (src/backend/main.py lines 49-57). -/
def calculate_comorbidity_load
    (prior_stroke active_chemo recent_dka liver_disease smoking high_bp : Bool) : ℕ :=
  min (comorbiditySum prior_stroke active_chemo recent_dka liver_disease smoking high_bp) 100

/-- Primary-alert selection inside `calculate_risks` (src/backend/main.py lines
119-121): `max(risks, key=risks.get)` over the insertion-ordered dict
Bleeding, Hypoglycemia, AKI.  Python `max` keeps the first element whose key is
maximal, replacing the running best only on a strictly greater score. -/
def selectPrimary (b_risk h_risk a_risk : ℕ) : String × ℕ :=
  if h_risk > b_risk then
    (if a_risk > h_risk then ("AKI", a_risk) else ("Hypoglycemia", h_risk))
  else
    (if a_risk > b_risk then ("AKI", a_risk) else ("Bleeding", b_risk))

end Backend

/-- Python `str.lower` on the ASCII drug names: lower-case every character. -/
def pyLower (s : String) : String :=
  String.mk (s.data.map Char.toLower)

/-- Python `str.strip`: drop leading and trailing whitespace. -/
def pyStrip (s : String) : String :=
  String.mk (((s.data.dropWhile Char.isWhitespace).reverse.dropWhile
    Char.isWhitespace).reverse)

/-- Python name normalisation `s.lower().strip()` used by both `check_interaction`
implementations (src/app.py line 234, src/backend/main.py line 129). -/
def pyNorm (s : String) : String :=
  pyStrip (pyLower s)

namespace App

/-- `interaction_db` (src/app.py lines 210-231), in source order. -/
def interaction_db : List ((String × String) × String) :=
  [(("warfarin", "amiodarone"), "Major: Amiodaride increases INR, high bleeding risk."),
   (("warfarin", "ibuprofen"), "Major: NSAIDs increase bleeding risk with Warfarin."),
   (("apixaban", "ibuprofen"), "Moderate: NSAIDs increase bleeding risk with Apixaban."),
   (("clopidogrel", "aspirin"), "Moderate: Dual antiplatelet therapy, increases bleed risk."),
   (("rivaroxaban", "fluconazole"),
     "Major: Fluconazole increases Rivaroxaban levels (CYP3A4 inhibitor); high bleeding risk."),
   (("warfarin", "paracetamol"),
     "Major: Paracetamol increases Warfarin's effect; high bleeding risk."),
   (("sertraline", "warfarin"),
     "Moderate: SSRI (Sertraline) combined with Warfarin increases baseline bleeding risk."),
   (("lisinopril", "spironolactone"), "Major: Risk of severe hyperkalemia (high potassium)."),
   (("ibuprofen", "lisinopril"), "Major: Severe AKI risk (Triple Whammy component)."),
   (("furosemide", "lisinopril"),
     "Major: Diuretic + ACEi causes severe hypotension and AKI risk."),
   (("prednisone", "furosemide"),
     "Major: Steroid + Diuretic increases risk of severe hypokalemia (low potassium)."),
   (("lithium", "hydrochlorothiazide"),
     "Major: Diuretic (HCTZ) increases Lithium toxicity risk by slowing excretion."),
   (("allopurinol", "azathioprine"),
     "Major: Allopurinol dramatically increases Azathioprine toxicity and risk of severe bone marrow suppression."),
   (("glipizide", "alcohol"), "Major: Increased risk of severe hypoglycemia."),
   (("metformin", "cimetidine"),
     "Moderate: Cimetidine increases Metformin levels, raising hypoglycemia risk."),
   (("trimethoprim/sulfamethoxazole", "metformin"),
     "Major: TMP/SMX increases Metformin levels, high hypoglycemia risk."),
   (("metoprolol", "insulin"),
     "Moderate: Beta-blocker (Metoprolol) can mask the warning signs of hypoglycemia."),
   (("sertraline", "sumatriptan"),
     "Major: Both increase serotonin levels; high risk of Serotonin Syndrome."),
   (("azithromycin", "amiodarone"),
     "Major: Both prolong QT interval; high risk of fatal arrhythmia."),
   (("metoprolol", "diltiazem"),
     "Major: Both slow heart rate; high risk of severe bradycardia and hypotension.")]

/-- Membership test / lookup of the Python dict `interaction_db` on one ordered key. -/
def dbFind (k : String × String) : Option String :=
  (interaction_db.find? (fun e => e.1 == k)).map (fun e => e.2)

/-- `check_interaction` (src/app.py lines 233-239): normalise both names, try the
pair in the given order, then reversed, else the sentinel. -/
def check_interaction (drug1 drug2 : String) : String :=
  let d1 := pyNorm drug1
  let d2 := pyNorm drug2
  match dbFind (d1, d2) with
  | some v => v
  | none =>
    match dbFind (d2, d1) with
    | some v => v
    | none => "No major interaction found."

end App

namespace Backend

/-- `interaction_db` (src/backend/main.py lines 59-64). -/
def interaction_db : List ((String × String) × String) :=
  [(("warfarin", "amiodarone"), "Major: Amiodaride increases INR, high bleeding risk."),
   (("warfarin", "ibuprofen"), "Major: NSAIDs increase bleeding risk with Warfarin."),
   (("lisinopril", "spironolactone"), "Major: Risk of severe hyperkalemia."),
   (("ibuprofen", "lisinopril"), "Major: Severe AKI risk (Triple Whammy).")]

/-- Lookup of the backend dict on one ordered key (`interaction_db.get`). -/
def dbFind (k : String × String) : Option String :=
  (interaction_db.find? (fun e => e.1 == k)).map (fun e => e.2)

/-- `check_interaction` (src/backend/main.py lines 127-131):
`db.get((d1,d2)) or db.get((d2,d1)) or sentinel` — every stored description is a
non-empty string, so the `or` chain takes the first successful lookup. -/
def check_interaction (drug1 drug2 : String) : String :=
  let d1 := pyNorm drug1
  let d2 := pyNorm drug2
  ((dbFind (d1, d2)).or (dbFind (d2, d1))).getD "No major interaction found."

end Backend

/-- The `inputs` dict the Risk Calculator hands to `generate_detailed_alert`
(src/app.py lines 393-399). -/
structure AlertInputs where
  inr : ℚ
  antibiotic_order : Bool
  on_antiplatelet : Bool
  alcohol_use : Bool
  hist_gi_bleed : Bool
  prior_stroke : Bool
  impaired_renal : Bool
  high_hba1c : Bool
  recent_dka : Bool
  weight : ℚ
  baseline_creat : ℚ
  active_chemo : Bool
  on_acei_arb : Bool
  on_diuretic : Bool
  contrast_exposure : Bool

namespace App

/-- The shared tail of `generate_detailed_alert` (src/app.py lines 178-181):
join the collected factors after the base message, or fall back to the generic
demographic sentence when none were collected (Python `if factors:`). -/
def finishAlert (base_message : String) (factors : List String) : String :=
  if factors ≠ [] then base_message ++ " " ++ String.intercalate ", " factors ++ "."
  else base_message ++ " High risk due to combination of demographic factors."

/-- `generate_detailed_alert` (src/app.py lines 148-181): per category, collect
the factor strings of the true conditions in source order, then join them. -/
def generate_detailed_alert (risk_type : String) (i : AlertInputs) : String :=
  if risk_type = "Bleeding" then
    let base_message :=
      "🔴 CRITICAL ALERT: Highest threat is **Bleeding Risk**. Primary factors:"
    let factors : List String := []
    let factors := if i.inr > 3.5 then
      factors ++ ["High INR (" ++ toString i.inr ++ ")"] else factors
    let factors := if i.antibiotic_order then
      factors ++ ["New Antibiotic Order (Metabolic Interference)"] else factors
    let factors := if i.on_antiplatelet then
      factors ++ ["Dual Antiplatelet/Anticoagulant Therapy"] else factors
    let factors := if i.alcohol_use then
      factors ++ ["Heavy Alcohol Use"] else factors
    let factors := if i.hist_gi_bleed then
      factors ++ ["History of GI Bleed"] else factors
    let factors := if i.prior_stroke then
      factors ++ ["History of Stroke/TIA (Complex Management)"] else factors
    finishAlert base_message factors
  else if risk_type = "Hypoglycemic" then
    let base_message :=
      "🔴 CRITICAL ALERT: Highest threat is **Hypoglycemic Risk**. Primary factors:"
    let factors : List String := []
    let factors := if i.impaired_renal then
      factors ++ ["Impaired Renal Status (Reduced Drug Clearance)"] else factors
    let factors := if i.high_hba1c then
      factors ++ ["Poor DM Control (HbA1c > 9.0%)"] else factors
    let factors := if i.recent_dka then
      factors ++ ["Recent DKA/HHS Admission (Metabolic Volatility)"] else factors
    let factors := if i.weight < 60 then
      factors ++ ["Low Body Weight (" ++ toString i.weight ++ " kg)"] else factors
    finishAlert base_message factors
  else if risk_type = "AKI" then
    let base_message :=
      "🔴 CRITICAL ALERT: Highest threat is **AKI Risk (Renal)**. Primary factors:"
    let factors : List String := []
    let factors := if i.baseline_creat > 1.5 then
      factors ++ ["Baseline CKD (Creatinine > 1.5)"] else factors
    let factors := if i.active_chemo then
      factors ++ ["Active Chemotherapy (Nephrotoxic Agent)"] else factors
    let factors := if i.contrast_exposure then
      factors ++ ["Recent Contrast Dye Exposure"] else factors
    let factors := if i.on_acei_arb && i.on_diuretic then
      factors ++ ["Combined ACEi/Diuretic Therapy"] else factors
    finishAlert base_message factors
  else
    "HIGH RISK ALERT: Check specific patient risks."

end App

/-- The emitted factor strings: the second components of the checklist entries
whose condition holds, in checklist order. -/
def trueFactors (l : List (Bool × String)) : List String :=
  (l.filter (fun p => p.1)).map (fun p => p.2)

/-- The Bleeding checklist in the fixed order the spec documents: INR > 3.5, new
antibiotic order, antiplatelet/anticoagulant combination, alcohol use, GI bleed
history, prior stroke. -/
def bleedingChecklist (i : AlertInputs) : List (Bool × String) :=
  [(decide (i.inr > 3.5), "High INR (" ++ toString i.inr ++ ")"),
   (i.antibiotic_order, "New Antibiotic Order (Metabolic Interference)"),
   (i.on_antiplatelet, "Dual Antiplatelet/Anticoagulant Therapy"),
   (i.alcohol_use, "Heavy Alcohol Use"),
   (i.hist_gi_bleed, "History of GI Bleed"),
   (i.prior_stroke, "History of Stroke/TIA (Complex Management)")]

/-- The Hypoglycemic checklist in fixed order: impaired renal status, poor DM
control, recent DKA/HHS, low body weight. -/
def hypoChecklist (i : AlertInputs) : List (Bool × String) :=
  [(i.impaired_renal, "Impaired Renal Status (Reduced Drug Clearance)"),
   (i.high_hba1c, "Poor DM Control (HbA1c > 9.0%)"),
   (i.recent_dka, "Recent DKA/HHS Admission (Metabolic Volatility)"),
   (decide (i.weight < 60), "Low Body Weight (" ++ toString i.weight ++ " kg)")]

/-- The AKI checklist in fixed order: baseline CKD, active chemotherapy,
contrast exposure, combined ACEi and diuretic therapy. -/
def akiChecklist (i : AlertInputs) : List (Bool × String) :=
  [(decide (i.baseline_creat > 1.5), "Baseline CKD (Creatinine > 1.5)"),
   (i.active_chemo, "Active Chemotherapy (Nephrotoxic Agent)"),
   (i.contrast_exposure, "Recent Contrast Dye Exposure"),
   (i.on_acei_arb && i.on_diuretic, "Combined ACEi/Diuretic Therapy")]

/-- Selection policy as the spec words it (spec section 4.5): take the maximum of
the three scores and return the first category in the fixed priority order
Bleeding, Hypoglycemia, AKI whose score equals that maximum. -/
def specSelectPrimary (b_risk h_risk a_risk : ℕ) : String × ℕ :=
  let m := max b_risk (max h_risk a_risk)
  if b_risk = m then ("Bleeding", m)
  else if h_risk = m then ("Hypoglycemia", m)
  else ("AKI", m)

/-- The bleeding weight table exactly as the spec documents it (spec sections 4.1 and 8),
written from the spec words, to be compared with `App.calculate_bleeding_risk`. -/
def specBleedingScore (age : ℤ) (inr : ℚ)
    (anticoagulant gi_bleed uncontrolled_bp antiplatelet : Bool) (gender : String) (weight : ℚ)
    (smoking alcohol_use antibiotic_order dietary_change liver_disease prior_stroke : Bool) : ℕ :=
  min ((if anticoagulant then 35 else 0)
    + (if inr > 3.5 then 40 else 0)
    + (if gi_bleed then 30 else 0)
    + (if antiplatelet then 15 else 0)
    + (if antibiotic_order then 25 else 0)
    + (if alcohol_use then 15 else 0)
    + (if liver_disease then 20 else 0)
    + (if dietary_change then 10 else 0)
    + (if age > 70 then 10 else 0)
    + (if uncontrolled_bp then 10 else 0)
    + (if smoking then 10 else 0)
    + (if gender = "Female" then 5 else 0)
    + (if weight > 120 ∨ weight < 50 then 15 else 0)
    + (if prior_stroke then 15 else 0)) 100

/-- C1: `calculate_bleeding_risk` equals the spec-documented weighted sum saturated
at 100 for every input, and on the worked example (age 78, INR 4.1, every flag set
except the dietary change, female, weight 55) the pre-clamp sum is 230 and the
returned score is 100. -/
theorem bleeding_risk_matches_spec :
    (∀ (age : ℤ) (inr : ℚ) (ac gi bp ap : Bool) (g : String) (w : ℚ)
      (sm al ab dc ld ps : Bool),
      App.calculate_bleeding_risk age inr ac gi bp ap g w sm al ab dc ld ps
        = specBleedingScore age inr ac gi bp ap g w sm al ab dc ld ps)
    ∧ App.bleedingSum 78 4.1 true true true true "Female" 55 true true true false true true = 230
    ∧ App.calculate_bleeding_risk 78 4.1 true true true true "Female" 55
        true true true false true true = 100 := by
  refine ⟨fun age inr ac gi bp ap g w sm al ab dc ld ps => rfl,
    by norm_num [App.bleedingSum],
    by norm_num [App.calculate_bleeding_risk, App.bleedingSum]⟩

/-- C2: every one of the four scorers returns a value in [0,100] on every input,
and with every bleeding condition simultaneously true (age 78, INR 4.1, weight 45,
female, all flags set) the pre-clamp sum is 255 while the returned score is 100. -/
theorem scorers_clamped_to_100 :
    (∀ (age : ℤ) (inr : ℚ) (ac gi bp ap : Bool) (g : String) (w : ℚ)
      (sm al ab dc ld ps : Bool),
      App.calculate_bleeding_risk age inr ac gi bp ap g w sm al ab dc ld ps ≤ 100)
    ∧ (∀ (ins ren hba neu : Bool) (g : String) (w : ℚ) (dka : Bool),
      App.calculate_hypoglycemic_risk ins ren hba neu g w dka ≤ 100)
    ∧ (∀ (age : ℤ) (diu acei bp chemo : Bool) (g : String) (w : ℚ) (race : String)
      (creat : ℚ) (con : Bool),
      App.calculate_aki_risk age diu acei bp chemo g w race creat con ≤ 100)
    ∧ (∀ ps chemo dka ld sm bp : Bool,
      App.calculate_comorbidity_load ps chemo dka ld sm bp ≤ 100)
    ∧ App.bleedingSum 78 4.1 true true true true "Female" 45 true true true true true true = 255
    ∧ App.calculate_bleeding_risk 78 4.1 true true true true "Female" 45
        true true true true true true = 100 := by
  refine ⟨fun _ _ _ _ _ _ _ _ _ _ _ _ _ _ => min_le_right _ _,
    fun _ _ _ _ _ _ _ => min_le_right _ _,
    fun _ _ _ _ _ _ _ _ _ _ => min_le_right _ _,
    fun _ _ _ _ _ _ => min_le_right _ _,
    by norm_num [App.bleedingSum],
    by norm_num [App.calculate_bleeding_risk, App.bleedingSum]⟩

/-- C9: the gender and weight parameters of `calculate_aki_risk` are dead — varying
them (in either implementation) never changes the result. -/
theorem aki_gender_weight_dead :
    (∀ (age : ℤ) (diu acei bp chemo : Bool) (g g2 : String) (w w2 : ℚ) (race : String)
      (creat : ℚ) (con : Bool),
      App.calculate_aki_risk age diu acei bp chemo g w race creat con
        = App.calculate_aki_risk age diu acei bp chemo g2 w2 race creat con)
    ∧ (∀ (age : ℤ) (diu acei bp chemo : Bool) (g g2 : String) (w w2 : ℚ) (race : String)
      (creat : ℚ) (con : Bool),
      Backend.calculate_aki_risk age diu acei bp chemo g w race creat con
        = Backend.calculate_aki_risk age diu acei bp chemo g2 w2 race creat con) :=
  ⟨fun _ _ _ _ _ _ _ _ _ _ _ _ => rfl, fun _ _ _ _ _ _ _ _ _ _ _ _ => rfl⟩

/-- C10: the four scoring functions duplicated in src/app.py and src/backend/main.py
are extensionally equal. -/
theorem app_backend_scorers_equal :
    (∀ (age : ℤ) (inr : ℚ) (ac gi bp ap : Bool) (g : String) (w : ℚ)
      (sm al ab dc ld ps : Bool),
      App.calculate_bleeding_risk age inr ac gi bp ap g w sm al ab dc ld ps
        = Backend.calculate_bleeding_risk age inr ac gi bp ap g w sm al ab dc ld ps)
    ∧ (∀ (ins ren hba neu : Bool) (g : String) (w : ℚ) (dka : Bool),
      App.calculate_hypoglycemic_risk ins ren hba neu g w dka
        = Backend.calculate_hypoglycemic_risk ins ren hba neu g w dka)
    ∧ (∀ (age : ℤ) (diu acei bp chemo : Bool) (g : String) (w : ℚ) (race : String)
      (creat : ℚ) (con : Bool),
      App.calculate_aki_risk age diu acei bp chemo g w race creat con
        = Backend.calculate_aki_risk age diu acei bp chemo g w race creat con)
    ∧ (∀ ps chemo dka ld sm bp : Bool,
      App.calculate_comorbidity_load ps chemo dka ld sm bp
        = Backend.calculate_comorbidity_load ps chemo dka ld sm bp) :=
  ⟨fun _ _ _ _ _ _ _ _ _ _ _ _ _ _ => rfl, fun _ _ _ _ _ _ _ => rfl,
    fun _ _ _ _ _ _ _ _ _ _ => rfl, fun _ _ _ _ _ _ => rfl⟩

/-- C3: the backend primary-alert selection returns the maximum of the three
category scores and, on ties, the first category in the fixed priority order
Bleeding, Hypoglycemia, AKI; the app's Risk Calculator selection follows the
same priority order; scores (70, 70, 0) select Bleeding. -/
theorem select_primary_max_and_priority :
    (∀ b h a : ℕ, Backend.selectPrimary b h a = specSelectPrimary b h a)
    ∧ Backend.selectPrimary 70 70 0 = ("Bleeding", 70)
    ∧ (∀ b h a : ℕ, App.risk_type_of b h a =
        (if b = max b (max h a) then "Bleeding"
         else if h = max b (max h a) then "Hypoglycemic" else "AKI"))
    ∧ App.risk_type_of 70 70 0 = "Bleeding" := by
  refine ⟨fun b h a => ?_, by decide, fun b h a => ?_, by decide⟩
  · simp only [Backend.selectPrimary, specSelectPrimary, Nat.max_def]
    split_ifs <;>
      first
        | rfl
        | (simp only [Prod.mk.injEq, eq_self_iff_true, true_and]; omega)
        | (exfalso; omega)
  · simp only [App.risk_type_of, Nat.max_def]
    split_ifs <;> first | rfl | (exfalso; omega)

/-- C4: the alert classification is a function of the primary score with exact
boundaries — at 90 and above the label is CRITICAL, from 70 to 89 it is HIGH,
below 70 the label is LOW and the Risk Calculator renders no primary alert
(reporting the patient as manageable); in particular 70 is HIGH, 69 is not
actionable, 90 is CRITICAL and 89 is HIGH. -/
theorem alert_label_boundaries :
    (∀ m : ℕ, 90 ≤ m → App.alert_label m = "CRITICAL")
    ∧ (∀ m : ℕ, 70 ≤ m → m < 90 → App.alert_label m = "HIGH")
    ∧ (∀ m : ℕ, m < 70 → App.alert_label m = "LOW" ∧ App.showsPrimaryAlert m = false)
    ∧ (∀ m : ℕ, 70 ≤ m → App.showsPrimaryAlert m = true)
    ∧ App.alert_label 70 = "HIGH" ∧ App.showsPrimaryAlert 70 = true
    ∧ App.showsPrimaryAlert 69 = false
    ∧ App.alert_label 90 = "CRITICAL" ∧ App.alert_label 89 = "HIGH" := by
  refine ⟨fun m hm => ?_, fun m hm hm2 => ?_, fun m hm => ⟨?_, ?_⟩, fun m hm => ?_,
    by decide, by decide, by decide, by decide, by decide⟩
  · simp only [App.alert_label]
    rw [if_pos hm]
  · simp only [App.alert_label]
    rw [if_neg (by omega), if_pos hm]
  · simp only [App.alert_label]
    rw [if_neg (by omega), if_neg (by omega)]
  · simp only [App.showsPrimaryAlert, decide_eq_false_iff_not]
    omega
  · simp only [App.showsPrimaryAlert, decide_eq_true_eq]
    omega

/-- Closed instances of `alert_label_boundaries`, discharging its hypotheses at
the scores 95, 75 and 10. -/
theorem alert_label_boundaries_witness :
    App.alert_label 95 = "CRITICAL" ∧ App.alert_label 75 = "HIGH"
    ∧ (App.alert_label 10 = "LOW" ∧ App.showsPrimaryAlert 10 = false)
    ∧ App.showsPrimaryAlert 80 = true :=
  ⟨alert_label_boundaries.1 95 (by norm_num),
    alert_label_boundaries.2.1 75 (by norm_num) (by norm_num),
    alert_label_boundaries.2.2.1 10 (by norm_num),
    alert_label_boundaries.2.2.2.1 80 (by norm_num)⟩

/-- C5: for every scorer and every boolean flag, toggling the flag from false to
true with all other inputs fixed raises the returned score by exactly the flag
weight, provided the post-toggle pre-clamp sum does not exceed 100.  One
conjunct per flag: bleeding (anticoagulant 35, GI bleed 30, uncontrolled BP 10,
antiplatelet 15, smoking 10, alcohol 15, antibiotic order 25, dietary change 10,
liver disease 20, prior stroke 15), hypoglycemia (insulin 30, impaired renal 45,
high HbA1c 20, neuropathy 10, recent DKA 20), AKI (diuretic 30, ACEi/ARB 40,
uncontrolled BP 10, active chemo 20, contrast 25), comorbidity (prior stroke 25,
active chemo 30, recent DKA 20, liver disease 15, smoking 10, uncontrolled BP
10). -/
theorem flag_contributions_additive :
    (∀ (age : ℤ) (inr : ℚ) (gi bp ap : Bool) (g : String) (w : ℚ) (sm al ab dc ld ps : Bool),
      App.bleedingSum age inr true gi bp ap g w sm al ab dc ld ps ≤ 100 →
      App.calculate_bleeding_risk age inr true gi bp ap g w sm al ab dc ld ps
        = App.calculate_bleeding_risk age inr false gi bp ap g w sm al ab dc ld ps + 35)
    ∧
    (∀ (age : ℤ) (inr : ℚ) (ac bp ap : Bool) (g : String) (w : ℚ) (sm al ab dc ld ps : Bool),
      App.bleedingSum age inr ac true bp ap g w sm al ab dc ld ps ≤ 100 →
      App.calculate_bleeding_risk age inr ac true bp ap g w sm al ab dc ld ps
        = App.calculate_bleeding_risk age inr ac false bp ap g w sm al ab dc ld ps + 30)
    ∧
    (∀ (age : ℤ) (inr : ℚ) (ac gi ap : Bool) (g : String) (w : ℚ) (sm al ab dc ld ps : Bool),
      App.bleedingSum age inr ac gi true ap g w sm al ab dc ld ps ≤ 100 →
      App.calculate_bleeding_risk age inr ac gi true ap g w sm al ab dc ld ps
        = App.calculate_bleeding_risk age inr ac gi false ap g w sm al ab dc ld ps + 10)
    ∧
    (∀ (age : ℤ) (inr : ℚ) (ac gi bp : Bool) (g : String) (w : ℚ) (sm al ab dc ld ps : Bool),
      App.bleedingSum age inr ac gi bp true g w sm al ab dc ld ps ≤ 100 →
      App.calculate_bleeding_risk age inr ac gi bp true g w sm al ab dc ld ps
        = App.calculate_bleeding_risk age inr ac gi bp false g w sm al ab dc ld ps + 15)
    ∧
    (∀ (age : ℤ) (inr : ℚ) (ac gi bp ap : Bool) (g : String) (w : ℚ) (al ab dc ld ps : Bool),
      App.bleedingSum age inr ac gi bp ap g w true al ab dc ld ps ≤ 100 →
      App.calculate_bleeding_risk age inr ac gi bp ap g w true al ab dc ld ps
        = App.calculate_bleeding_risk age inr ac gi bp ap g w false al ab dc ld ps + 10)
    ∧
    (∀ (age : ℤ) (inr : ℚ) (ac gi bp ap : Bool) (g : String) (w : ℚ) (sm ab dc ld ps : Bool),
      App.bleedingSum age inr ac gi bp ap g w sm true ab dc ld ps ≤ 100 →
      App.calculate_bleeding_risk age inr ac gi bp ap g w sm true ab dc ld ps
        = App.calculate_bleeding_risk age inr ac gi bp ap g w sm false ab dc ld ps + 15)
    ∧
    (∀ (age : ℤ) (inr : ℚ) (ac gi bp ap : Bool) (g : String) (w : ℚ) (sm al dc ld ps : Bool),
      App.bleedingSum age inr ac gi bp ap g w sm al true dc ld ps ≤ 100 →
      App.calculate_bleeding_risk age inr ac gi bp ap g w sm al true dc ld ps
        = App.calculate_bleeding_risk age inr ac gi bp ap g w sm al false dc ld ps + 25)
    ∧
    (∀ (age : ℤ) (inr : ℚ) (ac gi bp ap : Bool) (g : String) (w : ℚ) (sm al ab ld ps : Bool),
      App.bleedingSum age inr ac gi bp ap g w sm al ab true ld ps ≤ 100 →
      App.calculate_bleeding_risk age inr ac gi bp ap g w sm al ab true ld ps
        = App.calculate_bleeding_risk age inr ac gi bp ap g w sm al ab false ld ps + 10)
    ∧
    (∀ (age : ℤ) (inr : ℚ) (ac gi bp ap : Bool) (g : String) (w : ℚ) (sm al ab dc ps : Bool),
      App.bleedingSum age inr ac gi bp ap g w sm al ab dc true ps ≤ 100 →
      App.calculate_bleeding_risk age inr ac gi bp ap g w sm al ab dc true ps
        = App.calculate_bleeding_risk age inr ac gi bp ap g w sm al ab dc false ps + 20)
    ∧
    (∀ (age : ℤ) (inr : ℚ) (ac gi bp ap : Bool) (g : String) (w : ℚ) (sm al ab dc ld : Bool),
      App.bleedingSum age inr ac gi bp ap g w sm al ab dc ld true ≤ 100 →
      App.calculate_bleeding_risk age inr ac gi bp ap g w sm al ab dc ld true
        = App.calculate_bleeding_risk age inr ac gi bp ap g w sm al ab dc ld false + 15)
    ∧
    (∀ (ren hba neu : Bool) (g : String) (w : ℚ) (dka : Bool),
      App.hypoSum true ren hba neu g w dka ≤ 100 →
      App.calculate_hypoglycemic_risk true ren hba neu g w dka
        = App.calculate_hypoglycemic_risk false ren hba neu g w dka + 30)
    ∧
    (∀ (ins hba neu : Bool) (g : String) (w : ℚ) (dka : Bool),
      App.hypoSum ins true hba neu g w dka ≤ 100 →
      App.calculate_hypoglycemic_risk ins true hba neu g w dka
        = App.calculate_hypoglycemic_risk ins false hba neu g w dka + 45)
    ∧
    (∀ (ins ren neu : Bool) (g : String) (w : ℚ) (dka : Bool),
      App.hypoSum ins ren true neu g w dka ≤ 100 →
      App.calculate_hypoglycemic_risk ins ren true neu g w dka
        = App.calculate_hypoglycemic_risk ins ren false neu g w dka + 20)
    ∧
    (∀ (ins ren hba : Bool) (g : String) (w : ℚ) (dka : Bool),
      App.hypoSum ins ren hba true g w dka ≤ 100 →
      App.calculate_hypoglycemic_risk ins ren hba true g w dka
        = App.calculate_hypoglycemic_risk ins ren hba false g w dka + 10)
    ∧
    (∀ (ins ren hba neu : Bool) (g : String) (w : ℚ),
      App.hypoSum ins ren hba neu g w true ≤ 100 →
      App.calculate_hypoglycemic_risk ins ren hba neu g w true
        = App.calculate_hypoglycemic_risk ins ren hba neu g w false + 20)
    ∧
    (∀ (age : ℤ) (acei bp chemo : Bool) (g : String) (w : ℚ) (race : String) (creat : ℚ) (con : Bool),
      App.akiSum age true acei bp chemo g w race creat con ≤ 100 →
      App.calculate_aki_risk age true acei bp chemo g w race creat con
        = App.calculate_aki_risk age false acei bp chemo g w race creat con + 30)
    ∧
    (∀ (age : ℤ) (diu bp chemo : Bool) (g : String) (w : ℚ) (race : String) (creat : ℚ) (con : Bool),
      App.akiSum age diu true bp chemo g w race creat con ≤ 100 →
      App.calculate_aki_risk age diu true bp chemo g w race creat con
        = App.calculate_aki_risk age diu false bp chemo g w race creat con + 40)
    ∧
    (∀ (age : ℤ) (diu acei chemo : Bool) (g : String) (w : ℚ) (race : String) (creat : ℚ) (con : Bool),
      App.akiSum age diu acei true chemo g w race creat con ≤ 100 →
      App.calculate_aki_risk age diu acei true chemo g w race creat con
        = App.calculate_aki_risk age diu acei false chemo g w race creat con + 10)
    ∧
    (∀ (age : ℤ) (diu acei bp : Bool) (g : String) (w : ℚ) (race : String) (creat : ℚ) (con : Bool),
      App.akiSum age diu acei bp true g w race creat con ≤ 100 →
      App.calculate_aki_risk age diu acei bp true g w race creat con
        = App.calculate_aki_risk age diu acei bp false g w race creat con + 20)
    ∧
    (∀ (age : ℤ) (diu acei bp chemo : Bool) (g : String) (w : ℚ) (race : String) (creat : ℚ),
      App.akiSum age diu acei bp chemo g w race creat true ≤ 100 →
      App.calculate_aki_risk age diu acei bp chemo g w race creat true
        = App.calculate_aki_risk age diu acei bp chemo g w race creat false + 25)
    ∧
    (∀ (chemo dka ld sm bp : Bool),
      App.comorbiditySum true chemo dka ld sm bp ≤ 100 →
      App.calculate_comorbidity_load true chemo dka ld sm bp
        = App.calculate_comorbidity_load false chemo dka ld sm bp + 25)
    ∧
    (∀ (ps dka ld sm bp : Bool),
      App.comorbiditySum ps true dka ld sm bp ≤ 100 →
      App.calculate_comorbidity_load ps true dka ld sm bp
        = App.calculate_comorbidity_load ps false dka ld sm bp + 30)
    ∧
    (∀ (ps chemo ld sm bp : Bool),
      App.comorbiditySum ps chemo true ld sm bp ≤ 100 →
      App.calculate_comorbidity_load ps chemo true ld sm bp
        = App.calculate_comorbidity_load ps chemo false ld sm bp + 20)
    ∧
    (∀ (ps chemo dka sm bp : Bool),
      App.comorbiditySum ps chemo dka true sm bp ≤ 100 →
      App.calculate_comorbidity_load ps chemo dka true sm bp
        = App.calculate_comorbidity_load ps chemo dka false sm bp + 15)
    ∧
    (∀ (ps chemo dka ld bp : Bool),
      App.comorbiditySum ps chemo dka ld true bp ≤ 100 →
      App.calculate_comorbidity_load ps chemo dka ld true bp
        = App.calculate_comorbidity_load ps chemo dka ld false bp + 10)
    ∧
    (∀ (ps chemo dka ld sm : Bool),
      App.comorbiditySum ps chemo dka ld sm true ≤ 100 →
      App.calculate_comorbidity_load ps chemo dka ld sm true
        = App.calculate_comorbidity_load ps chemo dka ld sm false + 10) := by
  refine ⟨?_, ?_, ?_, ?_, ?_, ?_, ?_, ?_, ?_, ?_, ?_, ?_, ?_, ?_, ?_, ?_, ?_, ?_, ?_, ?_, ?_, ?_, ?_, ?_, ?_, ?_⟩ <;>
    (intros
     simp only [App.calculate_bleeding_risk, App.bleedingSum,
       App.calculate_hypoglycemic_risk, App.hypoSum,
       App.calculate_aki_risk, App.akiSum,
       App.calculate_comorbidity_load, App.comorbiditySum,
       if_true, if_false, Bool.false_eq_true] at *
     omega)


/-- Closed instance of `flag_contributions_additive`: toggling the anticoagulant
flag alone on an otherwise risk-free patient raises the bleeding score by 35. -/
theorem flag_contributions_additive_witness :
    App.calculate_bleeding_risk 60 1 true false false false "Male" 75
        false false false false false false
      = App.calculate_bleeding_risk 60 1 false false false false "Male" 75
        false false false false false false + 35 :=
  flag_contributions_additive.1 60 1 false false false "Male" 75
    false false false false false false (by simp [App.bleedingSum]; norm_num)

/-- No pair of drug names appears in the app table in both orders, so a hit on
(x, y) and a hit on (y, x) carry the same description. -/
theorem app_dbFind_rev {x y v w : String}
    (h1 : App.dbFind (x, y) = some v) (h2 : App.dbFind (y, x) = some w) : v = w := by
  unfold App.dbFind at h1
  rcases Option.map_eq_some'.mp h1 with ⟨e, he, hev⟩
  have hmem := List.mem_of_find?_eq_some he
  have hpe := List.find?_some he
  have hk : e.1 = (x, y) := by simpa using hpe
  subst hev
  fin_cases hmem <;>
    (simp only [Prod.mk.injEq] at hk
     obtain ⟨hx, hy⟩ := hk
     subst hx; subst hy
     simp [App.dbFind, App.interaction_db] at h2 ⊢)

/-- No pair of drug names appears in the backend table in both orders. -/
theorem backend_dbFind_rev {x y v w : String}
    (h1 : Backend.dbFind (x, y) = some v) (h2 : Backend.dbFind (y, x) = some w) : v = w := by
  unfold Backend.dbFind at h1
  rcases Option.map_eq_some'.mp h1 with ⟨e, he, hev⟩
  have hmem := List.mem_of_find?_eq_some he
  have hpe := List.find?_some he
  have hk : e.1 = (x, y) := by simpa using hpe
  subst hev
  fin_cases hmem <;>
    (simp only [Prod.mk.injEq] at hk
     obtain ⟨hx, hy⟩ := hk
     subst hx; subst hy
     simp [Backend.dbFind, Backend.interaction_db] at h2 ⊢)

/-- C6: interaction lookup is symmetric in its two arguments, is unchanged when
either argument is replaced by any variant with the same normalised (lowercased,
stripped) form — which covers case changes and leading/trailing whitespace — and
the worked example: ("Warfarin", "Amiodarone") and ("amiodarone", " WARFARIN ")
return the identical string, the warfarin-amiodarone description. -/
theorem interaction_lookup_symmetric :
    (∀ A B : String, App.check_interaction A B = App.check_interaction B A)
    ∧ (∀ A B A2 B2 : String, pyNorm A2 = pyNorm A → pyNorm B2 = pyNorm B →
        App.check_interaction A2 B2 = App.check_interaction A B)
    ∧ App.check_interaction "Warfarin" "Amiodarone"
        = App.check_interaction "amiodarone" " WARFARIN "
    ∧ App.check_interaction "Warfarin" "Amiodarone"
        = "Major: Amiodaride increases INR, high bleeding risk."
    ∧ (∀ A B : String, Backend.check_interaction A B = Backend.check_interaction B A) := by
  refine ⟨fun A B => ?_, fun A B A2 B2 hA hB => ?_, by decide, by decide, fun A B => ?_⟩
  · simp only [App.check_interaction]
    cases hf : App.dbFind (pyNorm A, pyNorm B) <;>
      cases hg : App.dbFind (pyNorm B, pyNorm A) <;> simp [hf, hg]
    exact app_dbFind_rev hf hg
  · simp only [App.check_interaction, hA, hB]
  · simp only [Backend.check_interaction]
    cases hf : Backend.dbFind (pyNorm A, pyNorm B) <;>
      cases hg : Backend.dbFind (pyNorm B, pyNorm A) <;> simp [hf, hg]
    exact backend_dbFind_rev hf hg

/-- Closed instance of `interaction_lookup_symmetric`: case and whitespace
variants of Warfarin and Amiodarone give the same result as the originals. -/
theorem interaction_lookup_symmetric_witness :
    App.check_interaction "WARFARIN " "  amioDARONE"
      = App.check_interaction "Warfarin" "Amiodarone" :=
  interaction_lookup_symmetric.2.1 "Warfarin" "Amiodarone" "WARFARIN " "  amioDARONE"
    (by decide) (by decide)

/-- C7: interaction lookup is total with a single failure path — whenever the
normalised pair is absent from the table in both orders the fixed sentinel
string comes back; every possible result is either the sentinel or one of the
table descriptions; ("Aspirin", "Metformin") returns the sentinel (in both
implementations). -/
theorem interaction_lookup_sentinel :
    (∀ A B : String,
      App.dbFind (pyNorm A, pyNorm B) = none → App.dbFind (pyNorm B, pyNorm A) = none →
      App.check_interaction A B = "No major interaction found.")
    ∧ (∀ A B : String, App.check_interaction A B = "No major interaction found."
        ∨ ∃ e ∈ App.interaction_db, App.check_interaction A B = e.2)
    ∧ App.check_interaction "Aspirin" "Metformin" = "No major interaction found."
    ∧ Backend.check_interaction "Aspirin" "Metformin" = "No major interaction found."
    ∧ (∀ A B : String,
      Backend.dbFind (pyNorm A, pyNorm B) = none → Backend.dbFind (pyNorm B, pyNorm A) = none →
      Backend.check_interaction A B = "No major interaction found.") := by
  refine ⟨fun A B h1 h2 => ?_, fun A B => ?_, by decide, by decide, fun A B h1 h2 => ?_⟩
  · simp only [App.check_interaction]
    rw [h1, h2]
  · simp only [App.check_interaction]
    cases hf : App.dbFind (pyNorm A, pyNorm B)
    · cases hg : App.dbFind (pyNorm B, pyNorm A)
      · simp
      · right
        rcases Option.map_eq_some'.mp hg with ⟨e, he, hev⟩
        exact ⟨e, List.mem_of_find?_eq_some he, by simp [hev]⟩
    · right
      rcases Option.map_eq_some'.mp hf with ⟨e, he, hev⟩
      exact ⟨e, List.mem_of_find?_eq_some he, by simp [hev]⟩
  · simp only [Backend.check_interaction]
    rw [h1, h2]
    rfl

/-- Closed instance of `interaction_lookup_sentinel` at ("Aspirin", "Metformin"),
whose normalised pair is in neither table in either order. -/
theorem interaction_lookup_sentinel_witness :
    App.check_interaction "Aspirin" "Metformin" = "No major interaction found."
    ∧ Backend.check_interaction "Aspirin" "Metformin" = "No major interaction found." :=
  ⟨interaction_lookup_sentinel.1 "Aspirin" "Metformin" (by decide) (by decide),
    interaction_lookup_sentinel.2.2.2.2 "Aspirin" "Metformin" (by decide) (by decide)⟩

/-- C8: for each category, the rationale generator emits exactly the checklist
factors whose condition is true in the given inputs, joined after the base
message in the fixed checklist order, and falls back to the generic demographic
sentence when no checklist factor is true; any other category string yields the
generic high-risk message. -/
theorem rationale_emits_true_factors_in_order :
    (∀ i : AlertInputs, App.generate_detailed_alert "Bleeding" i =
      (if trueFactors (bleedingChecklist i) = [] then
        "🔴 CRITICAL ALERT: Highest threat is **Bleeding Risk**. Primary factors:"
          ++ " High risk due to combination of demographic factors."
       else
        "🔴 CRITICAL ALERT: Highest threat is **Bleeding Risk**. Primary factors:"
          ++ " " ++ String.intercalate ", " (trueFactors (bleedingChecklist i)) ++ "."))
    ∧ (∀ i : AlertInputs, App.generate_detailed_alert "Hypoglycemic" i =
      (if trueFactors (hypoChecklist i) = [] then
        "🔴 CRITICAL ALERT: Highest threat is **Hypoglycemic Risk**. Primary factors:"
          ++ " High risk due to combination of demographic factors."
       else
        "🔴 CRITICAL ALERT: Highest threat is **Hypoglycemic Risk**. Primary factors:"
          ++ " " ++ String.intercalate ", " (trueFactors (hypoChecklist i)) ++ "."))
    ∧ (∀ i : AlertInputs, App.generate_detailed_alert "AKI" i =
      (if trueFactors (akiChecklist i) = [] then
        "🔴 CRITICAL ALERT: Highest threat is **AKI Risk (Renal)**. Primary factors:"
          ++ " High risk due to combination of demographic factors."
       else
        "🔴 CRITICAL ALERT: Highest threat is **AKI Risk (Renal)**. Primary factors:"
          ++ " " ++ String.intercalate ", " (trueFactors (akiChecklist i)) ++ "."))
    ∧ (∀ (rt : String) (i : AlertInputs), rt ≠ "Bleeding" → rt ≠ "Hypoglycemic" →
        rt ≠ "AKI" →
        App.generate_detailed_alert rt i = "HIGH RISK ALERT: Check specific patient risks.") := by
  refine ⟨fun i => ?_, fun i => ?_, fun i => ?_, fun rt i h1 h2 h3 => ?_⟩
  · by_cases h1 : i.inr > 3.5 <;> cases h2 : i.antibiotic_order <;>
      cases h3 : i.on_antiplatelet <;> cases h4 : i.alcohol_use <;>
      cases h5 : i.hist_gi_bleed <;> cases h6 : i.prior_stroke <;>
      simp [App.generate_detailed_alert, App.finishAlert, bleedingChecklist, trueFactors,
        h1, h2, h3, h4, h5, h6]
  · cases h2 : i.impaired_renal <;> cases h3 : i.high_hba1c <;>
      cases h4 : i.recent_dka <;> by_cases h5 : i.weight < 60 <;>
      simp [App.generate_detailed_alert, App.finishAlert, hypoChecklist, trueFactors,
        h2, h3, h4, h5]
  · by_cases h1 : i.baseline_creat > 1.5 <;> cases h2 : i.active_chemo <;>
      cases h3 : i.contrast_exposure <;> cases h4 : i.on_acei_arb <;>
      cases h5 : i.on_diuretic <;>
      simp [App.generate_detailed_alert, App.finishAlert, akiChecklist, trueFactors,
        h1, h2, h3, h4, h5]
  · simp [App.generate_detailed_alert, h1, h2, h3]

/-- Closed instance of `rationale_emits_true_factors_in_order`: an unknown
category string falls through to the generic message. -/
theorem rationale_emits_true_factors_in_order_witness :
    App.generate_detailed_alert "General"
      ⟨1, false, false, false, false, false, false, false, false, 75, 1, false, false,
        false, false⟩
      = "HIGH RISK ALERT: Check specific patient risks." :=
  rationale_emits_true_factors_in_order.2.2.2 "General"
    ⟨1, false, false, false, false, false, false, false, false, 75, 1, false, false,
      false, false⟩
    (by decide) (by decide) (by decide)
